import Mathlib

/-!
Verification development for the zypper package-reconciliation module
(src/packaging/os/zypper.py).  The Python source is shallowly embedded:
pure helpers become Lean functions, the external process driver becomes an
oracle (a map from call index to command result) together with an explicit
trace of issued commands, and Python exceptions become an `Except` error
channel.  The module targets Python 2 (2015-era ansible, distutils), so
`LooseVersion` comparison follows Python 2 semantics (ints sort before
strings; byte-wise string comparison, which agrees with code-point
comparison on the ASCII inputs the module handles).
-/

set_option maxRecDepth 4000
set_option linter.unusedVariables false

/-! ## distutils.version.LooseVersion (used at source lines 126-130)

`LooseVersion.parse` splits a version string with
`re.split` on the pattern (\d+|[a-z]+|\.), keeping captured delimiters,
drops empty pieces and "." pieces, and converts all-digit pieces to int.
Consecutive characters of one class form one maximal run; any maximal run
of characters that are not digits, not lowercase letters and not a dot is
kept as a single string component.  Comparison is Python 2 list
comparison: element-wise, int before str, lexicographic tie-break on
length. -/

inductive LComp where
  | num (n : Nat)
  | str (s : String)
deriving DecidableEq, Repr

inductive TK where
  | dig
  | low
  | oth
deriving DecidableEq, Repr

def isLowerCh (c : Char) : Bool := 'a' ≤ c && c ≤ 'z'

/-- Character class for the LooseVersion component regex: digit run, lowercase
run, dot (dropped), or other. -/
def classifyCh (c : Char) : Option TK :=
  if c.isDigit then some TK.dig
  else if isLowerCh c then some TK.low
  else if c = '.' then none
  else some TK.oth

def digitsToNat (l : List Char) : Nat :=
  l.foldl (fun acc c => acc * 10 + (c.toNat - 48)) 0

def emitComp : TK → List Char → LComp
  | TK.dig, acc => LComp.num (digitsToNat acc)
  | TK.low, acc => LComp.str (String.mk acc)
  | TK.oth, acc => LComp.str (String.mk acc)

/-- One left-to-right pass accumulating maximal runs of one character class,
mirroring how the regex split produces components. -/
def tokAux : List Char → Option (TK × List Char) → List LComp
  | [], none => []
  | [], some (k, acc) => [emitComp k acc]
  | c :: cs, none =>
    match classifyCh c with
    | none => tokAux cs none
    | some k => tokAux cs (some (k, [c]))
  | c :: cs, some (k', acc) =>
    match classifyCh c with
    | none => emitComp k' acc :: tokAux cs none
    | some k =>
      if k = k' then tokAux cs (some (k', acc ++ [c]))
      else emitComp k' acc :: tokAux cs (some (k, [c]))

def looseParse (s : String) : List LComp := tokAux s.data none

def natCmp (a b : Nat) : Ordering :=
  if a < b then Ordering.lt else if b < a then Ordering.gt else Ordering.eq

def charCmp (a b : Char) : Ordering := natCmp a.toNat b.toNat

def strLexCmp : List Char → List Char → Ordering
  | [], [] => Ordering.eq
  | [], _ :: _ => Ordering.lt
  | _ :: _, [] => Ordering.gt
  | a :: as, b :: bs =>
    match charCmp a b with
    | Ordering.eq => strLexCmp as bs
    | o => o

/-- Python 2 comparison of two LooseVersion components: ints compare
numerically, strings byte-wise, and `int < str` always (cmp falls back to
comparing the type names). -/
def lcompCmp : LComp → LComp → Ordering
  | LComp.num a, LComp.num b => natCmp a b
  | LComp.num _, LComp.str _ => Ordering.lt
  | LComp.str _, LComp.num _ => Ordering.gt
  | LComp.str a, LComp.str b => strLexCmp a.data b.data

/-- Python 2 list comparison (element-wise, shorter prefix is smaller). -/
def lexCmp : List LComp → List LComp → Ordering
  | [], [] => Ordering.eq
  | [], _ :: _ => Ordering.lt
  | _ :: _, [] => Ordering.gt
  | a :: as, b :: bs =>
    match lcompCmp a b with
    | Ordering.eq => lexCmp as bs
    | o => o

/-- `cmp(LooseVersion(a), LooseVersion(b))` of the source. -/
def compareLoose (a b : String) : Ordering :=
  lexCmp (looseParse a) (looseParse b)

/-! ## PkgSpec (source lines 96-138)

The specifier regex is
`^(?P<pkg>[^=><]+)(?P<op>>=|<=|=|>|<)?(?P<ver>[^-]+)?-?(?P<rel>.+)?$`.
For newline-free input (the only input the module is given) greedy
matching never needs to backtrack, so the match is: `pkg` is the maximal
nonempty prefix of non-operator characters (no match at all if it is
empty), `op` is the alternation tried in order at the following position,
`ver` is the maximal run of non-dash characters after the operator,
one dash is then skipped, and `rel` is the (nonempty) remainder. -/

structure PkgSpec where
  rawspec : String
  pkg : String
  op : Option String
  version : Option String
  release : Option String
deriving DecidableEq, Repr

/-- The two `raise Exception` sites of `PkgSpec.__init__`: no regex match
(line 108) and a captured operator other than `=` (line 114). -/
inductive ParseErr where
  | invalid (raw : String)
  | unsupportedOp (op : String)
deriving DecidableEq, Repr

def isOpChar (c : Char) : Bool := c = '=' || c = '>' || c = '<'

/-- The `op` alternation `>=|<=|=|>|<` applied at the first operator
character (alternatives tried left to right, as in the regex). -/
def takeOp : List Char → Option (String × List Char)
  | [] => none
  | c :: rest =>
    if c = '>' then
      match rest with
      | '=' :: r2 => some (">=", r2)
      | _ => some (">", rest)
    else if c = '<' then
      match rest with
      | '=' :: r2 => some ("<=", r2)
      | _ => some ("<", rest)
    else if c = '=' then some ("=", rest)
    else none

def parseAfterOp (s : String) (pkgL : List Char) (op : String)
    (rest2 : List Char) : Except ParseErr PkgSpec :=
  let verL := rest2.takeWhile (fun c => c != '-')
  let rest3 := rest2.dropWhile (fun c => c != '-')
  let rest4 := match rest3 with
    | '-' :: t => t
    | r => r
  let ver : Option String := if verL.isEmpty then none else some (String.mk verL)
  let rel : Option String := if rest4.isEmpty then none else some (String.mk rest4)
  if op ≠ "=" then Except.error (ParseErr.unsupportedOp op)
  else Except.ok ⟨s, String.mk pkgL, some op, ver, rel⟩

/-- `PkgSpec.__init__` (source lines 102-117) for newline-free input. -/
def parsePkgSpec (s : String) : Except ParseErr PkgSpec :=
  let l := s.data
  let pkgL := l.takeWhile (fun c => !isOpChar c)
  if pkgL.isEmpty then Except.error (ParseErr.invalid s)
  else
    match takeOp (l.dropWhile (fun c => !isOpChar c)) with
    | none => Except.ok ⟨s, String.mk pkgL, none, none, none⟩
    | some (op, rest2) => parseAfterOp s pkgL op rest2

/-- The operator string the regex captures for `s`, if any (mirrors the
`op` group computation inside `parsePkgSpec`). -/
def capturedOp (s : String) : Option String :=
  let l := s.data
  if (l.takeWhile (fun c => !isOpChar c)).isEmpty then none
  else (takeOp (l.dropWhile (fun c => !isOpChar c))).map Prod.fst

/-- Python truthiness of an optional string (`None` and `""` are falsy). -/
def truthy : Option String → Bool
  | none => false
  | some s => !s.isEmpty

/-- Python `"%s"` rendering of an optional string. -/
def optStr : Option String → String
  | none => "None"
  | some s => s

/-- `PkgSpec.satisfies_spec` (source lines 120-138).  Note the method
itself compares `self.pkg` against the `packagename` argument, which the
caller sets to `None` for a package that is not installed. -/
def PkgSpec.satisfies_spec (self : PkgSpec) (packagename version release : Option String) : Bool :=
  if packagename ≠ some self.pkg then false
  else if truthy self.version && truthy self.release then
    compareLoose (optStr self.version ++ "-" ++ optStr self.release)
      (optStr version ++ "-" ++ optStr release) == Ordering.eq
  else if truthy self.version then
    compareLoose (optStr self.version) (optStr version) == Ordering.eq
  else
    true

/-! ## External process driver and run state

`module.run_command` is modelled by an oracle mapping the index of the
call to its `(rc, stdout, stderr)` result; the run state records how many
calls happened and the full ordered trace of issued argv vectors. -/

structure CmdResult where
  rc : Int
  stdout : String
  stderr : String
deriving DecidableEq, Repr

structure Exec where
  oracle : Nat → CmdResult

structure St where
  idx : Nat
  trace : List (List String)
deriving DecidableEq, Repr

def runCmd (e : Exec) (cmd : List String) (s : St) : CmdResult × St :=
  (e.oracle s.idx, { idx := s.idx + 1, trace := s.trace ++ [cmd] })

/-- Python exceptions the embedded functions can raise. -/
inductive PyErr where
  | nameError (name : String)
  | keyError (key : String)
  | exception (msg : String)
deriving DecidableEq, Repr

/-! ## Python dict of installed versions

`current_versions` maps a package name to `None` or a `(version, release)`
pair.  A dict is an association list with unique keys; assignment keeps
the original position of an existing key, equality is key-value set
equality. -/

def Dict := List (String × Option (String × String))

instance : DecidableEq Dict := by
  unfold Dict
  infer_instance

def dictGet (k : String) : Dict → Option (Option (String × String))
  | [] => none
  | kv :: rest => if kv.1 = k then some kv.2 else dictGet k rest

def dictInsert (k : String) (v : Option (String × String)) : Dict → Dict
  | [] => [(k, v)]
  | kv :: rest =>
    if kv.1 = k then (k, v) :: rest else kv :: dictInsert k v rest

/-- Python `==` on dicts (order-insensitive key-value comparison). -/
def dictEq (a b : Dict) : Bool :=
  a.all (fun kv => decide (dictGet kv.1 b = some kv.2)) &&
  b.all (fun kv => decide (dictGet kv.1 a = some kv.2))

/-! ## Installed-state query (source lines 152-179) -/

/-- Python 2 `str.splitlines` (splits on LF, CR and CRLF, no trailing
empty line for a terminal newline). -/
def slAux : List Char → List Char → List (List Char)
  | [], acc => if acc.isEmpty then [] else [acc]
  | '\r' :: '\n' :: t, acc => acc :: slAux t []
  | '\n' :: t, acc => acc :: slAux t []
  | '\r' :: t, acc => acc :: slAux t []
  | c :: t, acc => slAux t (acc ++ [c])

def splitlines (s : String) : List String := (slAux s.data []).map String.mk

def isSpaceCh (c : Char) : Bool :=
  c = ' ' || c = '\t' || c = '\n' || c = '\x0b' || c = '\x0c' || c = '\r'

/-- Strip an exact literal prefix, or fail. -/
def dropLit : List Char → List Char → Option (List Char)
  | [], l => some l
  | c :: cs, d :: ds => if c = d then dropLit cs ds else none
  | _ :: _, [] => none

/-- The rpm output line regex
`^package (?P<pkg>\S+) is installed version (?P<ver>\S+) release (?P<rel>\S+)$`
(source line 160).  Each `\S+` is a maximal nonempty run of non-whitespace
characters; since every following literal starts with a space, greedy
matching is deterministic. -/
def matchRpmLine (line : String) : Option (String × String × String) :=
  match dropLit "package ".data line.data with
  | none => none
  | some r1 =>
    let p := r1.takeWhile (fun c => !isSpaceCh c)
    if p.isEmpty then none
    else
      match dropLit " is installed version ".data (r1.dropWhile (fun c => !isSpaceCh c)) with
      | none => none
      | some r2 =>
        let v := r2.takeWhile (fun c => !isSpaceCh c)
        if v.isEmpty then none
        else
          match dropLit " release ".data (r2.dropWhile (fun c => !isSpaceCh c)) with
          | none => none
          | some r3 =>
            let r := r3.takeWhile (fun c => !isSpaceCh c)
            if r.isEmpty then none
            else if (r3.dropWhile (fun c => !isSpaceCh c)).isEmpty then
              some (String.mk p, String.mk v, String.mk r)
            else none

def rpmQueryCmd (pkgspecs : List PkgSpec) : List String :=
  ["/bin/rpm", "-q", "--qf",
   "package %\x7bNAME\x7d is installed version %\x7bVERSION\x7d release %\x7bRELEASE\x7d\n"]
  ++ pkgspecs.map (fun p => p.pkg)

/-- The loop of `get_installed_versions` (source lines 161-177): iterate
over `zip(stdout.splitlines(), pkgspecs)` pairing lines with requested
specs positionally; a line the regex rejects maps that position to `None`;
a matching line whose parsed name differs from that position's expected
name raises `Exception('package mismatch ...')`. -/
def givFold : List (String × PkgSpec) → Dict → Except PyErr Dict
  | [], d => Except.ok d
  | (line, pkgspec) :: rest, d =>
    match matchRpmLine line with
    | none => givFold rest (dictInsert pkgspec.pkg none d)
    | some (rpmpackage, rpmversion, rpmrelease) =>
      if pkgspec.pkg ≠ rpmpackage then
        Except.error (PyErr.exception
          ("package mismatch (expected " ++ pkgspec.pkg ++ ", got " ++ rpmpackage ++ ")"))
      else givFold rest (dictInsert pkgspec.pkg (some (rpmversion, rpmrelease)) d)

/-- `get_installed_versions` (source lines 152-179): one rpm query for the
whole batch, then the positional pairing loop. -/
def get_installed_versions (e : Exec) (pkgspecs : List PkgSpec) (s : St) :
    Except PyErr Dict × St :=
  let (res, s1) := runCmd e (rpmQueryCmd pkgspecs) s
  (givFold (List.zip (splitlines res.stdout) pkgspecs) [], s1)

/-! ## Reconciliation operations (source lines 183-304) -/

/-- The batch-collection loop of `package_present` (source lines 184-193):
`installed_state[pkgspec.pkg]` raises `KeyError` on a missing key; a spec
whose `satisfies_spec` test fails contributes its raw specifier string. -/
def packages_to_install (installed_state : Dict) : List PkgSpec → Except PyErr (List String)
  | [] => Except.ok []
  | ps :: rest =>
    match dictGet ps.pkg installed_state with
    | none => Except.error (PyErr.keyError ps.pkg)
    | some pkgstate =>
      let installedpkg : Option String := if pkgstate.isSome then some ps.pkg else none
      let installedver : Option String := pkgstate.map Prod.fst
      let installedrel : Option String := pkgstate.map Prod.snd
      match packages_to_install installed_state rest with
      | Except.error err => Except.error err
      | Except.ok tail =>
        if ps.satisfies_spec installedpkg installedver installedrel then Except.ok tail
        else Except.ok (ps.rawspec :: tail)

/-- Global names bound by the module source itself (its imports,
module-level assignments and def/class statements).  `package_type`,
referenced at source line 200, is not among them, and the star import of
the external ansible runtime helpers does not provide it either. -/
def moduleGlobalBindings : List String :=
  ["re", "sys", "LooseVersion", "DOCUMENTATION", "EXAMPLES", "debug_messages",
   "debug_to_stderr", "PkgSpec", "zypper_version", "get_installed_versions",
   "package_present", "package_latest", "package_absent", "write_debug", "main"]

/-- `package_present` (source lines 183-227).  With a non-empty install
batch, building the zypper command at line 200 evaluates the global name
`package_type`; no statement in the module binds that name, so the lookup
raises `NameError` before any zypper process is started (line 200 precedes
the `check_mode` test at line 208, so this happens in check mode too).
With an empty batch the function returns `(0, "", "", False)` without
running any command. -/
def package_present (e : Exec) (check_mode : Bool) (pkgspecs : List PkgSpec)
    (installed_state : Dict)
    (disable_gpg_check disable_recommends old_zypper : Bool) (s : St) :
    Except PyErr (Int × String × String × Bool) × St :=
  match packages_to_install installed_state pkgspecs with
  | Except.error err => (Except.error err, s)
  | Except.ok batch =>
    if batch.length > 0 then
      (Except.error (PyErr.nameError "package_type"), s)
    else
      (Except.ok (0, "", "", false), s)

/-- The name-collection loop of `package_absent` (source lines 274-278). -/
def packages_to_remove (installed_state : Dict) : List PkgSpec → Except PyErr (List String)
  | [] => Except.ok []
  | ps :: rest =>
    match dictGet ps.pkg installed_state with
    | none => Except.error (PyErr.keyError ps.pkg)
    | some pkgstate =>
      match packages_to_remove installed_state rest with
      | Except.error err => Except.error err
      | Except.ok tail =>
        if pkgstate.isSome then Except.ok (ps.pkg :: tail) else Except.ok tail

/-- `package_absent` (source lines 273-304). -/
def package_absent (e : Exec) (check_mode : Bool) (pkgspecs : List PkgSpec)
    (installed_state : Dict) (old_zypper : Bool) (s : St) :
    Except PyErr (Int × String × String × Bool) × St :=
  match packages_to_remove installed_state pkgspecs with
  | Except.error err => (Except.error err, s)
  | Except.ok batch =>
    if batch.length > 0 then
      let cmd := ["/usr/bin/zypper", "--non-interactive", "remove"] ++ batch
      if !check_mode then
        let (res, s1) := runCmd e cmd s
        (Except.ok (res.rc, res.stdout, res.stderr, decide (res.rc = 0)), s1)
      else
        (Except.ok (0, "", "", true), s)
    else
      (Except.ok (0, "", "", false), s)

/-- Python `needle in hay` / `hay.find(needle) >= 0`. -/
def containsSub (hay needle : List Char) : Bool :=
  match hay with
  | [] => needle.isEmpty
  | _ :: t => needle.isPrefixOf hay || containsSub t needle

def strContains (hay needle : String) : Bool := containsSub hay.data needle.data

/-- The upgrade command built by `package_latest` (source lines 239-253). -/
def latestCmd (disable_gpg_check old_zypper check_mode : Bool)
    (pkgspecs : List PkgSpec) : List String :=
  ["/usr/bin/zypper", "--non-interactive"]
  ++ (if disable_gpg_check then ["--no-gpg-checks"] else [])
  ++ (if old_zypper then ["install", "--auto-agree-with-licenses"]
      else ["update", "--auto-agree-with-licenses"])
  ++ (if check_mode then ["--dry-run"] else [])
  ++ pkgspecs.map (fun p => p.pkg)

/-- Source lines 235-270 of `package_latest`: everything after the
`package_present` phase, as a function of that phase's result.  When
`changed` is already true the pre/post snapshots and the final comparison
are skipped; otherwise the pre snapshot is taken, the upgrade command is
run, and (outside check mode) the post snapshot decides `changed`. -/
def latest_rest (e : Exec) (check_mode : Bool) (pkgspecs : List PkgSpec)
    (disable_gpg_check old_zypper : Bool)
    (rc0 : Int) (stdout0 stderr0 : String) (changed : Bool) (s : St) :
    Except PyErr (Int × String × String × Bool) × St :=
  if changed then
    let (res, s1) := runCmd e (latestCmd disable_gpg_check old_zypper check_mode pkgspecs) s
    (Except.ok (res.rc, res.stdout, res.stderr, true), s1)
  else
    match get_installed_versions e pkgspecs s with
    | (Except.error err, s1) => (Except.error err, s1)
    | (Except.ok pre_upgrade_versions, s1) =>
      let (res, s2) := runCmd e (latestCmd disable_gpg_check old_zypper check_mode pkgspecs) s1
      if check_mode then
        (Except.ok (res.rc, res.stdout, res.stderr,
          strContains res.stdout "is going to be upgraded"), s2)
      else
        match get_installed_versions e pkgspecs s2 with
        | (Except.error err, s3) => (Except.error err, s3)
        | (Except.ok post_upgrade_versions, s3) =>
          (Except.ok (res.rc, res.stdout, res.stderr,
            !dictEq pre_upgrade_versions post_upgrade_versions), s3)

/-- `package_latest` (source lines 230-270): the `package_present` phase
followed by `latest_rest`; the present phase's rc/stdout/stderr are
overwritten by the upgrade command's result, only its `changed` flag is
consulted. -/
def package_latest (e : Exec) (check_mode : Bool) (pkgspecs : List PkgSpec)
    (installed_state : Dict)
    (disable_gpg_check disable_recommends old_zypper : Bool) (s : St) :
    Except PyErr (Int × String × String × Bool) × St :=
  match package_present e check_mode pkgspecs installed_state
      disable_gpg_check disable_recommends old_zypper s with
  | (Except.error err, s1) => (Except.error err, s1)
  | (Except.ok (rc0, stdout0, stderr0, changed), s1) =>
    latest_rest e check_mode pkgspecs disable_gpg_check old_zypper
      rc0 stdout0 stderr0 changed s1

/-- A command mutates installed-package state when it is a zypper
invocation of the install/update/remove subcommands and is not a dry run;
rpm queries and `zypper -V` probes are reads. -/
def isMutationCmd (cmd : List String) : Bool :=
  decide (cmd.head? = some "/usr/bin/zypper") &&
  (cmd.contains "install" || cmd.contains "update" || cmd.contains "remove") &&
  !(cmd.contains "--dry-run")

def countMut (t : List (List String)) : Nat := t.countP isMutationCmd

/-! ## Concrete fixtures for the scenario theorems -/

def st0 : St := ⟨0, []⟩

def constExec : Exec := ⟨fun _ => ⟨0, "", ""⟩⟩

/-- `PkgSpec("foo=2.0")`. -/
def fooSpec : PkgSpec := ⟨"foo=2.0", "foo", some "=", some "2.0", none⟩

/-- `PkgSpec("foo")` (name only). -/
def specFoo : PkgSpec := ⟨"foo", "foo", none, none, none⟩

def specA : PkgSpec := ⟨"a", "a", none, none, none⟩

def specB : PkgSpec := ⟨"b", "b", none, none, none⟩

def specAname : PkgSpec := ⟨"A", "A", none, none, none⟩

/-- Installed state with package A at version 1.0 release 1. -/
def instA : Dict := [("A", some ("1.0", "1"))]

def preD : Dict := [("A", some ("1.0", "1"))]

def postD : Dict := [("A", some ("1.1", "1"))]

/-- Oracle for the EnsureLatest scenario: the pre-upgrade rpm query sees
A-1.0-1, the zypper update succeeds, the post-upgrade query sees A-1.1-1. -/
def scenExec : Exec :=
  ⟨fun n =>
    match n with
    | 0 => ⟨0, "package A is installed version 1.0 release 1\n", ""⟩
    | 1 => ⟨0, "", ""⟩
    | _ => ⟨0, "package A is installed version 1.1 release 1\n", ""⟩⟩

/-- rpm output lines arriving in the opposite of request order. -/
def execRpmSwapped : Exec :=
  ⟨fun _ => ⟨0,
    "package b is installed version 1 release 1\npackage a is installed version 2 release 2",
    ""⟩⟩

def execRpmOk : Exec :=
  ⟨fun _ => ⟨0, "package a is installed version 2 release 2", ""⟩⟩

def execRpmNotInst : Exec :=
  ⟨fun _ => ⟨0, "package a is not installed", ""⟩⟩

/-! ## Helper lemmas -/

theorem takeWhile_all_split (p : Char → Bool) :
    ∀ l : List Char, (∀ c ∈ l, p c = true) →
      l.takeWhile p = l ∧ l.dropWhile p = []
  | [], _ => by simp
  | a :: t, h => by
    have ha : p a = true := h a (List.mem_cons_self a t)
    have ih := takeWhile_all_split p t (fun c hc => h c (List.mem_cons_of_mem a hc))
    simp [List.takeWhile_cons, List.dropWhile_cons, ha, ih.1, ih.2]

theorem takeWhile_split (p : Char → Bool) :
    ∀ (l1 : List Char) (x : Char) (l2 : List Char),
      (∀ c ∈ l1, p c = true) → p x = false →
      (l1 ++ x :: l2).takeWhile p = l1 ∧ (l1 ++ x :: l2).dropWhile p = x :: l2
  | [], x, l2, _, hx => by
    simp [List.takeWhile_cons, List.dropWhile_cons, hx]
  | a :: t, x, l2, h, hx => by
    have ha : p a = true := h a (List.mem_cons_self a t)
    have ih := takeWhile_split p t x l2 (fun c hc => h c (List.mem_cons_of_mem a hc)) hx
    simp [List.takeWhile_cons, List.dropWhile_cons, ha, ih.1, ih.2]

theorem data_ne_nil {s : String} (h : s ≠ "") : s.data ≠ [] := by
  intro hd
  apply h
  cases s with
  | mk d => simp_all

theorem natCmp_self (n : Nat) : natCmp n n = Ordering.eq := by
  simp [natCmp]

theorem charCmp_self (c : Char) : charCmp c c = Ordering.eq := by
  simp [charCmp, natCmp_self]

theorem strLexCmp_self : ∀ l : List Char, strLexCmp l l = Ordering.eq
  | [] => rfl
  | a :: t => by
    simp [strLexCmp, charCmp_self, strLexCmp_self t]

theorem lcompCmp_self (c : LComp) : lcompCmp c c = Ordering.eq := by
  cases c with
  | num n => simp [lcompCmp, natCmp_self]
  | str s => simp [lcompCmp, strLexCmp_self]

theorem lexCmp_self : ∀ l : List LComp, lexCmp l l = Ordering.eq
  | [] => rfl
  | a :: t => by
    simp [lexCmp, lcompCmp_self, lexCmp_self t]

theorem compareLoose_self (a : String) : compareLoose a a = Ordering.eq := by
  simp [compareLoose, lexCmp_self]

theorem isEmpty_false {l : List Char} (h : l ≠ []) : l.isEmpty = false := by
  cases l with
  | nil => exact absurd rfl h
  | cons a t => rfl

/-! ## Parser claims -/

/-- Claim C7: every nonempty specifier containing no operator character,
including names with embedded dashes, parses to a PackageSpec whose name
is the whole raw string, with no version and no release (no release split
happens without an operator). -/
theorem parse_name_only (s : String) (hne : s ≠ "")
    (hop : ∀ c ∈ s.data, isOpChar c = false) :
    parsePkgSpec s = Except.ok ⟨s, s, none, none, none⟩ := by
  have hall : ∀ c ∈ s.data, (fun c => !isOpChar c) c = true := fun c hc => by
    simp [hop c hc]
  obtain ⟨ht, hd⟩ := takeWhile_all_split (fun c => !isOpChar c) s.data hall
  have hmk : String.mk s.data = s := rfl
  simp only [parsePkgSpec, ht, hd, hmk, takeOp, isEmpty_false (data_ne_nil hne)]
  simp

/-- Witness for C7 at a name with embedded dashes. -/
theorem parse_name_only_witness :
    parsePkgSpec "my-package-name" =
      Except.ok ⟨"my-package-name", "my-package-name", none, none, none⟩ :=
  parse_name_only "my-package-name" (by decide) (by decide)

/-- Claim C6 counterexample: on `"foo=1.2-3-4"` the parser captures the
version as the maximal dash-free run after the operator (`[^-]+`), so the
split happens at the FIRST dash after the operator, not the last: version
is `"1.2"` and release `"3-4"`, not `"1.2-3"` and `"4"` as the claim
states. -/
theorem parse_release_split_cex :
    parsePkgSpec "foo=1.2-3-4" =
      Except.ok ⟨"foo=1.2-3-4", "foo", some "=", some "1.2", some "3-4"⟩
    ∧ (some "1.2" : Option String) ≠ some "1.2-3"
    ∧ (some "3-4" : Option String) ≠ some "4" :=
  ⟨rfl, by decide, by decide⟩

/-- Claim C6 (amended): for every valid specifier `name=V-R` in which the
version part `V` contains no dash, parsing recovers name, version=V and
release=R exactly; the release is the segment after the FIRST dash
following the operator.  (`R` must be newline-free because the trailing
`.+` group of the Python regex does not cross newlines; the other parts
need no such restriction.) -/
theorem parse_eq_version_release (name V R : String)
    (hn : name ≠ "") (hnop : ∀ c ∈ name.data, isOpChar c = false)
    (hv : V ≠ "") (hvd : ∀ c ∈ V.data, c ≠ '-')
    (hr : R ≠ "") (hrn : '\n' ∉ R.data) :
    parsePkgSpec (name ++ "=" ++ V ++ "-" ++ R) =
      Except.ok ⟨name ++ "=" ++ V ++ "-" ++ R, name, some "=", some V, some R⟩ := by
  have h1 : ("=" : String).data = ['='] := rfl
  have h2 : ("-" : String).data = ['-'] := rfl
  have hdata : (name ++ "=" ++ V ++ "-" ++ R).data
      = name.data ++ '=' :: (V.data ++ '-' :: R.data) := by
    simp [String.data_append, h1, h2]
  have hallp : ∀ c ∈ name.data, (fun c => !isOpChar c) c = true := fun c hc => by
    simp [hnop c hc]
  obtain ⟨ht, hd⟩ := takeWhile_split (fun c => !isOpChar c) name.data '='
    (V.data ++ '-' :: R.data) hallp (by simp [isOpChar])
  have hvall : ∀ c ∈ V.data, (fun c => c != '-') c = true := fun c hc => by
    simp [hvd c hc]
  obtain ⟨hvt, hvdrop⟩ := takeWhile_split (fun c => c != '-') V.data '-' R.data
    hvall (by simp)
  have hmn : String.mk name.data = name := rfl
  have hmv : String.mk V.data = V := rfl
  have hmr : String.mk R.data = R := rfl
  have htop : takeOp ('=' :: (V.data ++ '-' :: R.data))
      = some ("=", V.data ++ '-' :: R.data) := rfl
  simp only [parsePkgSpec, hdata, ht, hd, isEmpty_false (data_ne_nil hn), htop]
  simp only [Bool.false_eq_true, if_false]
  unfold parseAfterOp
  rw [hvt, hvdrop]
  simp only [isEmpty_false (data_ne_nil hv), isEmpty_false (data_ne_nil hr),
    hmn, hmv, hmr]
  simp

/-- Witness for C6 (amended). -/
theorem parse_eq_version_release_witness :
    parsePkgSpec "wireshark=1.10.13-1" =
      Except.ok ⟨"wireshark=1.10.13-1", "wireshark", some "=", some "1.10.13", some "1"⟩ :=
  parse_eq_version_release "wireshark" "1.10.13" "1"
    (by decide) (by decide) (by decide) (by decide) (by decide) (by decide)

/-- Claim C8: any specifier on which the regex captures an operator other
than `=` is rejected with the unsupported-operator error, which is a
different error from the invalid-specifier (no-match) one; in particular
`"pkg>=1.0"`; no PackageSpec value is produced. -/
theorem parse_rejects_noneq_op :
    (∀ s o, capturedOp s = some o → o ≠ "=" →
      parsePkgSpec s = Except.error (ParseErr.unsupportedOp o))
    ∧ parsePkgSpec "pkg>=1.0" = Except.error (ParseErr.unsupportedOp ">=")
    ∧ (∀ o raw, ParseErr.unsupportedOp o ≠ ParseErr.invalid raw) := by
  refine ⟨?_, rfl, fun o raw h => ParseErr.noConfusion h⟩
  intro s o hco hne
  unfold capturedOp at hco
  unfold parsePkgSpec
  by_cases he : (s.data.takeWhile (fun c => !isOpChar c)).isEmpty
  · simp [he] at hco
  · simp only [he, if_false, Bool.false_eq_true] at hco ⊢
    cases hto : takeOp (s.data.dropWhile (fun c => !isOpChar c)) with
    | none => rw [hto] at hco; simp at hco
    | some pr =>
      cases pr with
      | mk op rest2 =>
        rw [hto] at hco
        have hop : op = o := by simpa using hco
        subst hop
        simp [parseAfterOp, hne]

/-- Witness for C8 at a single-character operator. -/
theorem parse_rejects_noneq_op_witness :
    parsePkgSpec "a>b" = Except.error (ParseErr.unsupportedOp ">") :=
  parse_rejects_noneq_op.1 "a>b" ">" (by decide) (by decide)

/-- Claim C5 counterexample: the specifier `"foo"` carries no version,
yet `satisfies_spec` returns `false` in the not-installed state, because
the method compares `self.pkg` with the `packagename` argument and
`package_present` passes `None` for a package that is not installed; the
collection loop therefore puts the spec into the install batch. -/
theorem satisfies_noversion_cex :
    parsePkgSpec "foo" = Except.ok specFoo
    ∧ specFoo.satisfies_spec none none none = false
    ∧ packages_to_install [("foo", none)] [specFoo] = Except.ok ["foo"] :=
  ⟨rfl, rfl, rfl⟩

/-- Claim C5 (amended): a PackageSpec carrying no version is satisfied
exactly when the `packagename` argument equals its name; under
`package_present`'s calling convention (name passed only when the package
is installed) the not-installed state does NOT satisfy it. -/
theorem satisfies_noversion (sp : PkgSpec) (pn v r : Option String)
    (hnv : truthy sp.version = false) :
    (sp.satisfies_spec pn v r = true ↔ pn = some sp.pkg) := by
  unfold PkgSpec.satisfies_spec
  by_cases hpn : pn = some sp.pkg
  · simp [hpn, hnv]
  · simp [hpn]

/-- Witness for C5 (amended): with a name match the versionless spec is
satisfied. -/
theorem satisfies_noversion_witness :
    specFoo.satisfies_spec (some "foo") none none = true :=
  (satisfies_noversion specFoo (some "foo") none none rfl).mpr rfl

/-- Claim C9: the LooseVersion comparator is total and deterministic (for
any two version strings exactly one of Less/Equal/Greater holds), it is
reflexive (`compare(a,a) == Equal`), and numeric segments compare
numerically, so `compare("1.2.3","1.2.10") == Less`. -/
theorem loose_compare_total_order :
    (∀ a b : String,
      (compareLoose a b = Ordering.lt ∧ compareLoose a b ≠ Ordering.eq
        ∧ compareLoose a b ≠ Ordering.gt)
      ∨ (compareLoose a b ≠ Ordering.lt ∧ compareLoose a b = Ordering.eq
        ∧ compareLoose a b ≠ Ordering.gt)
      ∨ (compareLoose a b ≠ Ordering.lt ∧ compareLoose a b ≠ Ordering.eq
        ∧ compareLoose a b = Ordering.gt))
    ∧ (∀ a : String, compareLoose a a = Ordering.eq)
    ∧ compareLoose "1.2.3" "1.2.10" = Ordering.lt := by
  refine ⟨?_, compareLoose_self, rfl⟩
  intro a b
  cases h : compareLoose a b with
  | lt => exact Or.inl ⟨rfl, by simp, by simp⟩
  | eq => exact Or.inr (Or.inl ⟨by simp, rfl, by simp⟩)
  | gt => exact Or.inr (Or.inr ⟨by simp, by simp, rfl⟩)

/-- Claim C1, evaluated at the failing input (the claim states the intended
behaviour; the code diverges): with specifier `"foo=2.0"` and `foo` not
installed, `package_present` raises `NameError` on the unbound global
`package_type` while building the install command, so no zypper install is
issued (the trace is unchanged) and no `(rc, stdout, stderr, changed)`
tuple is produced. -/
theorem present_mutation_nameerror_eval :
    parsePkgSpec "foo=2.0" = Except.ok fooSpec
    ∧ package_present constExec false [fooSpec] [("foo", none)] false false false st0 =
        (Except.error (PyErr.nameError "package_type"), st0) :=
  ⟨rfl, rfl⟩

/-- Claim C2: whenever the install batch is non-empty, `package_present`
fails with `NameError` on the global name `package_type` while building
the zypper command (before any process is started: the run state comes
back unchanged, in check mode as well), and `package_type` is bound
nowhere in the module. -/
theorem present_nonempty_batch_nameerror :
    (∀ (e : Exec) (cm : Bool) (specs : List PkgSpec) (inst : Dict)
        (g r oz : Bool) (s : St) (batch : List String),
      packages_to_install inst specs = Except.ok batch → batch ≠ [] →
      package_present e cm specs inst g r oz s =
        (Except.error (PyErr.nameError "package_type"), s))
    ∧ "package_type" ∉ moduleGlobalBindings := by
  refine ⟨?_, by decide⟩
  intro e cm specs inst g r oz s batch hb hne
  unfold package_present
  rw [hb]
  have hlen : batch.length > 0 := List.length_pos.mpr hne
  simp [hlen]

/-- Witness for C2, in check mode. -/
theorem present_nonempty_batch_nameerror_witness :
    package_present constExec true [fooSpec] [("foo", none)] false false false st0 =
      (Except.error (PyErr.nameError "package_type"), st0) :=
  present_nonempty_batch_nameerror.1 constExec true [fooSpec] [("foo", none)]
    false false false st0 ["foo=2.0"] rfl (by decide)

/-! ## Trace lemmas for the mutation-count claim -/

theorem package_present_state (e : Exec) (cm : Bool) (specs : List PkgSpec)
    (inst : Dict) (g r oz : Bool) (s : St) :
    (package_present e cm specs inst g r oz s).2 = s := by
  unfold package_present
  cases hpt : packages_to_install inst specs with
  | error err => rfl
  | ok batch => dsimp only; split <;> rfl

theorem giv_state (e : Exec) (specs : List PkgSpec) (s : St) :
    (get_installed_versions e specs s).2 =
      ⟨s.idx + 1, s.trace ++ [rpmQueryCmd specs]⟩ := rfl

theorem isMut_rpm (specs : List PkgSpec) :
    isMutationCmd (rpmQueryCmd specs) = false := by
  have h : decide ((rpmQueryCmd specs).head? = some "/usr/bin/zypper") = false := by
    have hh : (rpmQueryCmd specs).head? = some "/bin/rpm" := rfl
    rw [hh]; decide
  simp [isMutationCmd, h]

theorem countMut_append (a b : List (List String)) :
    countMut (a ++ b) = countMut a + countMut b :=
  List.countP_append _ a b

theorem countMut_single_le (c : List String) : countMut [c] ≤ 1 := by
  unfold countMut
  cases h : isMutationCmd c <;> simp [List.countP_cons, h]

theorem countMut_rpm (specs : List PkgSpec) :
    countMut [rpmQueryCmd specs] = 0 := by
  unfold countMut
  simp [List.countP_cons, isMut_rpm]

theorem latest_rest_mut (e : Exec) (cm : Bool) (specs : List PkgSpec)
    (g oz : Bool) (rc0 : Int) (o0 e0 : String) (ch : Bool) (s : St) :
    countMut (latest_rest e cm specs g oz rc0 o0 e0 ch s).2.trace ≤
      countMut s.trace + 1 := by
  unfold latest_rest
  cases ch with
  | true =>
    simp only [if_true, runCmd, countMut_append]
    have := countMut_single_le (latestCmd g oz cm specs)
    omega
  | false =>
    simp only [Bool.false_eq_true, if_false]
    cases hg : get_installed_versions e specs s with
    | mk r1 s1 =>
      have hs1 : s1 = ⟨s.idx + 1, s.trace ++ [rpmQueryCmd specs]⟩ := by
        have := giv_state e specs s
        rw [hg] at this
        exact this
      cases r1 with
      | error err =>
        simp only
        rw [hs1]
        simp [countMut_append, countMut_rpm]
      | ok pre =>
        simp only [runCmd]
        cases hcm : cm with
        | true =>
          simp only [if_true]
          rw [hs1]
          simp only [St.trace]
          rw [List.append_assoc, countMut_append, countMut_append, countMut_rpm]
          have := countMut_single_le (latestCmd g oz true specs)
          omega
        | false =>
          simp only [Bool.false_eq_true, if_false]
          cases hg2 : get_installed_versions e specs
              ⟨s1.idx + 1, s1.trace ++ [latestCmd g oz false specs]⟩ with
          | mk r2 s2 =>
            have hs2 : s2 = ⟨s1.idx + 2,
                (s1.trace ++ [latestCmd g oz false specs]) ++ [rpmQueryCmd specs]⟩ := by
              have := giv_state e specs ⟨s1.idx + 1, s1.trace ++ [latestCmd g oz false specs]⟩
              rw [hg2] at this
              exact this
            have htr : countMut s2.trace ≤ countMut s.trace + 1 := by
              rw [hs2, hs1]
              simp only [St.trace, countMut_append, countMut_rpm]
              have := countMut_single_le (latestCmd g oz false specs)
              omega
            cases r2 with
            | error err2 => simpa using htr
            | ok post => simpa using htr

/-- Claim C3: no reconciliation operation call adds more than one mutating
zypper invocation to the command trace.  `package_present` never runs a
command at all (an unsatisfied spec makes it fail on the unbound
`package_type` before the process is started); `package_absent` runs at
most the one remove command; `package_latest` runs at most the rpm
snapshots (reads), the single upgrade command, and nothing else, so even
though its `package_present` phase comes first, a call never performs two
mutations. -/
theorem ops_issue_at_most_one_mutation :
    (∀ (e : Exec) (cm : Bool) (specs : List PkgSpec) (inst : Dict)
        (g r oz : Bool) (s : St),
      countMut (package_present e cm specs inst g r oz s).2.trace ≤
        countMut s.trace + 1)
    ∧ (∀ (e : Exec) (cm : Bool) (specs : List PkgSpec) (inst : Dict)
        (oz : Bool) (s : St),
      countMut (package_absent e cm specs inst oz s).2.trace ≤
        countMut s.trace + 1)
    ∧ (∀ (e : Exec) (cm : Bool) (specs : List PkgSpec) (inst : Dict)
        (g r oz : Bool) (s : St),
      countMut (package_latest e cm specs inst g r oz s).2.trace ≤
        countMut s.trace + 1) := by
  refine ⟨?_, ?_, ?_⟩
  · intro e cm specs inst g r oz s
    rw [package_present_state]
    omega
  · intro e cm specs inst oz s
    unfold package_absent
    cases hpt : packages_to_remove inst specs with
    | error err => simp
    | ok batch =>
      dsimp only
      split
      · cases hcm : cm with
        | true => simp
        | false =>
          simp only [Bool.not_false, if_true, runCmd, countMut_append]
          have := countMut_single_le
            (["/usr/bin/zypper", "--non-interactive", "remove"] ++ batch)
          omega
      · simp
  · intro e cm specs inst g r oz s
    unfold package_latest
    have hps := package_present_state e cm specs inst g r oz s
    cases hpp : package_present e cm specs inst g r oz s with
    | mk res s1 =>
      have hs1 : s1 = s := by rw [hpp] at hps; exact hps
      subst hs1
      cases res with
      | error err => simp
      | ok tup =>
        obtain ⟨rc0, o0, e0, ch⟩ := tup
        first
        | exact latest_rest_mut e cm specs g oz rc0 o0 e0 ch s
        | exact latest_rest_mut e cm specs g oz rc0 o0 e0 ch s1

/-- Claim C4 counterexample: `get_installed_versions` pairs output lines
with requested names positionally, not by parsed name.  With requests
`[a, b]` and the rpm lines arriving in the order `b, a`, it raises the
package-mismatch exception even though the parsed name `b` IS one of the
expected names (name correlation would have succeeded), contradicting the
claim that only a line whose parsed name matches no expected name is
fatal. -/
theorem giv_positional_cex :
    (get_installed_versions execRpmSwapped [specA, specB] st0).1 =
      Except.error (PyErr.exception "package mismatch (expected a, got b)")
    ∧ "b" ∈ [specA, specB].map PkgSpec.pkg :=
  ⟨rfl, by decide⟩

/-- Claim C4 (amended): the query correlates positionally: output lines
are zipped with the requested specs in order (truncating at the shorter
list, so with empty output every requested name is simply absent from the
result, not mapped to a "not installed" entry); a line at some position
whose parsed name differs from that position's expected name is a fatal
error even when the parsed name is another expected name; a line the rpm
pattern rejects maps that position's name to None; a matching line in
position records that position's (version, release). -/
theorem giv_positional_contract :
    (∀ (e : Exec) (specs : List PkgSpec) (s : St),
      (e.oracle s.idx).stdout = "" →
      (get_installed_versions e specs s).1 = Except.ok [])
    ∧ (∀ (e : Exec) (s : St) (ps : PkgSpec) (rest : List PkgSpec)
        (l : String) (ls : List String) (p v r : String),
      splitlines (e.oracle s.idx).stdout = l :: ls →
      matchRpmLine l = some (p, v, r) →
      p ≠ ps.pkg →
      (get_installed_versions e (ps :: rest) s).1 =
        Except.error (PyErr.exception
          ("package mismatch (expected " ++ ps.pkg ++ ", got " ++ p ++ ")")))
    ∧ (get_installed_versions execRpmOk [specA] st0).1 =
        Except.ok [("a", some ("2", "2"))]
    ∧ (get_installed_versions execRpmNotInst [specA] st0).1 =
        Except.ok [("a", none)] := by
  refine ⟨?_, ?_, rfl, rfl⟩
  · intro e specs s h
    unfold get_installed_versions runCmd
    dsimp only
    rw [h]
    rfl
  · intro e s ps rest l ls p v r hsplit hmatch hne
    unfold get_installed_versions runCmd
    dsimp only
    rw [hsplit]
    simp only [List.zip_cons_cons, givFold, hmatch]
    have hps : ps.pkg ≠ p := Ne.symm hne
    simp [hps]

/-- Witness for C4 (amended), exercising the truncation part and the
positional-mismatch part. -/
theorem giv_positional_contract_witness :
    (get_installed_versions constExec [specFoo] st0).1 = Except.ok []
    ∧ (get_installed_versions execRpmSwapped [specA, specB] st0).1 =
        Except.error (PyErr.exception "package mismatch (expected a, got b)") :=
  ⟨giv_positional_contract.1 constExec [specFoo] st0 rfl,
   giv_positional_contract.2.1 execRpmSwapped st0 specA [specB]
     "package b is installed version 1 release 1"
     ["package a is installed version 2 release 2"] "b" "1" "1" rfl rfl (by decide)⟩

/-- Claim C10: in `package_latest` outside check mode, when the
`package_present` phase reports changed=false the final changed flag is
exactly the inequality of the pre-upgrade and post-upgrade installed-
version snapshots; in the concrete scenario where package A moves from
(1.0, 1) to (1.1, 1) the call reports changed=true; and the code after the
present phase (`latest_rest`), given changed=true, skips both snapshots
(exactly one further command, the upgrade, is issued) and returns
changed=true. -/
theorem latest_changed_snapshot :
    (∀ (e : Exec) (specs : List PkgSpec) (inst : Dict) (g r oz : Bool) (s : St)
        (rc0 : Int) (o0 e0 : String) (s1 : St) (pre : Dict) (s2 : St)
        (post : Dict) (s4 : St),
      package_present e false specs inst g r oz s = (Except.ok (rc0, o0, e0, false), s1) →
      get_installed_versions e specs s1 = (Except.ok pre, s2) →
      get_installed_versions e specs (runCmd e (latestCmd g oz false specs) s2).2 =
        (Except.ok post, s4) →
      package_latest e false specs inst g r oz s =
        (Except.ok ((runCmd e (latestCmd g oz false specs) s2).1.rc,
                    (runCmd e (latestCmd g oz false specs) s2).1.stdout,
                    (runCmd e (latestCmd g oz false specs) s2).1.stderr,
                    !dictEq pre post), s4))
    ∧ package_latest scenExec false [specAname] instA false false false st0 =
        (Except.ok (0, "", "", true),
         ⟨3, [rpmQueryCmd [specAname], latestCmd false false false [specAname],
              rpmQueryCmd [specAname]]⟩)
    ∧ (∀ (e : Exec) (cm : Bool) (specs : List PkgSpec) (g oz : Bool)
        (rc0 : Int) (o0 e0 : String) (s : St),
      latest_rest e cm specs g oz rc0 o0 e0 true s =
        (Except.ok ((e.oracle s.idx).rc, (e.oracle s.idx).stdout,
                    (e.oracle s.idx).stderr, true),
         ⟨s.idx + 1, s.trace ++ [latestCmd g oz cm specs]⟩)) := by
  refine ⟨?_, rfl, fun e cm specs g oz rc0 o0 e0 s => rfl⟩
  intro e specs inst g r oz s rc0 o0 e0 s1 pre s2 post s4 hp hpre hpost
  unfold package_latest
  rw [hp]
  unfold latest_rest
  simp only [Bool.false_eq_true, if_false]
  rw [hpre]
  simp only [runCmd] at hpost ⊢
  rw [hpost]

/-- Witness for C10, instantiating the snapshot-comparison part on the
concrete upgrade scenario. -/
theorem latest_changed_snapshot_witness :
    package_latest scenExec false [specAname] instA false false false st0 =
      (Except.ok (0, "", "", !dictEq preD postD),
       ⟨3, [rpmQueryCmd [specAname], latestCmd false false false [specAname],
            rpmQueryCmd [specAname]]⟩) :=
  latest_changed_snapshot.1 scenExec [specAname] instA false false false st0
    0 "" "" st0 preD ⟨1, [rpmQueryCmd [specAname]]⟩ postD
    ⟨3, [rpmQueryCmd [specAname], latestCmd false false false [specAname],
         rpmQueryCmd [specAname]]⟩ rfl rfl rfl
